import Mathlib

/-!
Shallow embedding of `input_pipeline.py` from ALBERT-TF2.0: record decoding,
feature schemas, feature/label selection, and the dataset pipeline stages
(shuffle / repeat / batch / prefetch / auto-shard options) built by
`file_based_input_fn_builder`, `create_classifier_dataset`,
`create_squad_dataset` and `create_squad_dataset_v2`.
-/

namespace InputPipeline

/-- The tensor element dtypes used by this file (`tf.int64`, `tf.int32`,
`tf.float32`). -/
inductive Dtype
  | int64
  | int32
  | float32
  deriving DecidableEq, Repr

/-- A tensor value: a dtype together with its (flattened) element values.
Integer elements are modelled as `Int`; float32 payloads also use `Int`
since no claim inspects float arithmetic. -/
structure Tensor where
  dtype : Dtype
  vals : List Int
  deriving DecidableEq, Repr

/-- Two's-complement wrap of an integer into the int32 range, the value
semantics of `tf.cast(t, tf.int32)` on an int64 input. -/
def toInt32 (v : Int) : Int :=
  (v + 2 ^ 31) % 2 ^ 32 - 2 ^ 31

/-- `tf.cast(t, tf.int32)`: retags the dtype and wraps each element into
int32 range. -/
def castToInt32 (t : Tensor) : Tensor :=
  { dtype := Dtype.int32, vals := t.vals.map toInt32 }

/-- A decoded example: the dict `name -> tensor`, in insertion order. -/
abbrev Example := List (String × Tensor)

/-- `tf.io.FixedLenFeature(shape, dtype)`: the declared shape and dtype of
one schema field. -/
structure FixedLenFeature where
  shape : List Nat
  dtype : Dtype
  deriving DecidableEq, Repr

/-- A schema: the `name_to_features` dict, in insertion order. -/
abbrev NameToFeatures := List (String × FixedLenFeature)

/-- An opaque serialized record, input to `tf.io.parse_single_example`. -/
abbrev SerializedRecord := List Int

/-- An opaque parse error raised by `tf.io.parse_single_example` on schema
mismatch or missing fields. -/
abbrev ParseError := String

/-- The type of `tf.io.parse_single_example`, an external-library function:
it either yields a decoded example or raises. -/
abbrev ParseFn := SerializedRecord → NameToFeatures → Except ParseError Example

/-- The cast loop inside `decode_record`: for each field, if its dtype is
int64 it is replaced by the same tensor cast to int32, otherwise kept. -/
def castLoop (ex : Example) : Example :=
  ex.map fun p =>
    (p.1, if p.2.dtype = Dtype.int64 then castToInt32 p.2 else p.2)

/-- `decode_record(record, name_to_features)`: parse the record against the
schema with the external library, then run the int64-to-int32 cast loop.
The code installs no handler, so a parse error propagates unchanged. -/
def decode_record (parse : ParseFn) (record : SerializedRecord)
    (name_to_features : NameToFeatures) : Except ParseError Example :=
  (parse record name_to_features).map castLoop

/-- The `input_file` argument: either a single path string or a list of
path strings. -/
inductive InputFile
  | single (path : String)
  | many (paths : List String)
  deriving DecidableEq, Repr

/-- The guard `isinstance(input_file, str) or len(input_file) == 1` in
`file_based_input_fn_builder.input_fn`. -/
def singleFileInput : InputFile → Bool
  | InputFile.single _ => true
  | InputFile.many ps => ps.length == 1

/-- One stage of a `tf.data` pipeline as configured by this file. -/
inductive Stage
  | sourceTFRecord (input_file : InputFile)
  | mapDecode
  | withOptions (autoShard : Bool)
  | mapSelect
  | shuffleStage (bufferSize : Nat) (reshuffle : Bool)
  | repeatStage
  | batch (batchSize : Nat) (dropRemainder : Bool)
  | prefetch (bufferSize : Nat)
  deriving DecidableEq, Repr

/-- `file_based_input_fn_builder(input_file, ...)().`: read the records,
map `decode_record` over them, and when the input is a single file (a path
string or a one-element list) set `options.experimental_distribute.auto_shard
= False`; otherwise no options are set. -/
def input_fn_stages (input_file : InputFile) : List Stage :=
  [Stage.sourceTFRecord input_file, Stage.mapDecode] ++
    (if singleFileInput input_file then [Stage.withOptions false] else [])

/-- The schema declared by `create_classifier_dataset`. -/
def classifier_name_to_features (seq_length : Nat) : NameToFeatures :=
  [("input_ids", ⟨[seq_length], Dtype.int64⟩),
   ("input_mask", ⟨[seq_length], Dtype.int64⟩),
   ("segment_ids", ⟨[seq_length], Dtype.int64⟩),
   ("label_ids", ⟨[], Dtype.int64⟩),
   ("is_real_example", ⟨[], Dtype.int64⟩)]

/-- The schema declared by `create_squad_dataset`: label fields are only
added when `is_training`. -/
def squad_name_to_features (seq_length : Nat) (is_training : Bool) :
    NameToFeatures :=
  [("unique_ids", ⟨[], Dtype.int64⟩),
   ("input_ids", ⟨[seq_length], Dtype.int64⟩),
   ("input_mask", ⟨[seq_length], Dtype.int64⟩),
   ("segment_ids", ⟨[seq_length], Dtype.int64⟩)] ++
    (if is_training then
      [("start_positions", ⟨[], Dtype.int64⟩),
       ("end_positions", ⟨[], Dtype.int64⟩)]
     else [])

/-- The schema declared by `create_squad_dataset_v2`: label fields are only
added when `is_training`. -/
def squad_v2_name_to_features (seq_length : Nat) (is_training : Bool) :
    NameToFeatures :=
  [("unique_ids", ⟨[], Dtype.int64⟩),
   ("input_ids", ⟨[seq_length], Dtype.int64⟩),
   ("input_mask", ⟨[seq_length], Dtype.float32⟩),
   ("segment_ids", ⟨[seq_length], Dtype.int64⟩),
   ("p_mask", ⟨[seq_length], Dtype.float32⟩)] ++
    (if is_training then
      [("start_positions", ⟨[], Dtype.int64⟩),
       ("end_positions", ⟨[], Dtype.int64⟩),
       ("is_impossible", ⟨[], Dtype.float32⟩)]
     else [])

/-- `create_classifier_dataset._select_data_from_record`: build `x` from
the three renamed sequence fields, take `y = record['label_ids']`. A
missing key raises (KeyError), modelled as `none`. -/
def classifier_select (record : Example) :
    Option (List (String × Tensor) × Tensor) :=
  match record.lookup "input_ids", record.lookup "input_mask",
      record.lookup "segment_ids", record.lookup "label_ids" with
  | some ids, some mask, some seg, some lab =>
      some ([("input_word_ids", ids), ("input_mask", mask),
             ("input_type_ids", seg)], lab)
  | _, _, _, _ => none

/-- The label-name test in `create_squad_dataset._select_data_from_record`:
`name in ('start_positions', 'end_positions')`. -/
def squadLabelName (name : String) : Bool :=
  name == "start_positions" || name == "end_positions"

/-- The label-name test in `create_squad_dataset_v2._select_data_from_record`:
`name in ('start_positions', 'end_positions', 'is_impossible')`. -/
def squadV2LabelName (name : String) : Bool :=
  name == "start_positions" || name == "end_positions" ||
    name == "is_impossible"

/-- The shared select loop of the two squad variants: iterate over the
record's items in order, routing label-named fields to `y` and everything
else to `x`. -/
def squad_select_with (isLabel : String → Bool) (record : Example) :
    Example × Example :=
  (record.filter (fun p => !isLabel p.1), record.filter (fun p => isLabel p.1))

/-- `create_squad_dataset._select_data_from_record`. -/
def squad_select (record : Example) : Example × Example :=
  squad_select_with squadLabelName record

/-- `create_squad_dataset_v2._select_data_from_record`. -/
def squad_v2_select (record : Example) : Example × Example :=
  squad_select_with squadV2LabelName record

/-- The stages appended after the select map, shared by all three dataset
constructors: shuffle when training (buffer size differs per constructor),
repeat when additionally `FLAGS.custom_training_loop` is set, then an
unconditional batch and prefetch. -/
def tail_stages (shuffleBuffer : Nat) (is_training custom_training_loop : Bool)
    (batch_size : Nat) (drop_remainder : Bool) : List Stage :=
  (if is_training then
    [Stage.shuffleStage shuffleBuffer true] ++
      (if custom_training_loop then [Stage.repeatStage] else [])
   else []) ++
    [Stage.batch batch_size drop_remainder, Stage.prefetch 1024]

/-- The pipeline built by `create_classifier_dataset`: shuffle buffer 1024,
batch honours the `drop_remainder` argument. -/
def create_classifier_dataset_stages (file_path : InputFile)
    (batch_size : Nat) (is_training custom_training_loop drop_remainder :
    Bool) : List Stage :=
  input_fn_stages file_path ++ [Stage.mapSelect] ++
    tail_stages 1024 is_training custom_training_loop batch_size
      drop_remainder

/-- The pipeline built by `create_squad_dataset`: shuffle buffer 100, batch
always with `drop_remainder=False`. -/
def create_squad_dataset_stages (file_path : InputFile) (batch_size : Nat)
    (is_training custom_training_loop : Bool) : List Stage :=
  input_fn_stages file_path ++ [Stage.mapSelect] ++
    tail_stages 100 is_training custom_training_loop batch_size false

/-- The pipeline built by `create_squad_dataset_v2`: shuffle buffer 100,
batch always with `drop_remainder=False`. -/
def create_squad_dataset_v2_stages (file_path : InputFile) (batch_size : Nat)
    (is_training custom_training_loop : Bool) : List Stage :=
  input_fn_stages file_path ++ [Stage.mapSelect] ++
    tail_stages 100 is_training custom_training_loop batch_size false

/-- Split a stream into consecutive batches of `n` elements; the final
batch may be shorter. A batch size of `0` is rejected by the library and
yields nothing here. -/
def chunkList (n : Nat) (l : List α) : List (List α) :=
  if h : n = 0 ∨ l.length = 0 then []
  else l.take n :: chunkList n (l.drop n)
termination_by l.length
decreasing_by
  push_neg at h
  simp only [List.length_drop]
  omega

/-- `dataset.batch(n, drop_remainder)`: chunk the stream, and when
`drop_remainder` is set keep only the full batches. -/
def batchStage (n : Nat) (dropRemainder : Bool) (l : List α) :
    List (List α) :=
  if dropRemainder then (chunkList n l).filter (fun c => c.length == n)
  else chunkList n l

/-- Evaluate one pipeline stage on a stream of batches (`List (List α)`;
before the batch stage every inner list is a singleton). `decodeF` and
`selectF` stand for the per-element map functions; `seed` is the random
state a run draws for shuffling, modelled as a rotation of the buffered
stream; `repeatCount` is how many epochs a run consumes from the infinite
`repeat`. -/
def runStage (decodeF selectF : α → α) (seed repeatCount : Nat) :
    Stage → List (List α) → List (List α)
  | Stage.sourceTFRecord _, d => d
  | Stage.mapDecode, d => d.map (List.map decodeF)
  | Stage.withOptions _, d => d
  | Stage.mapSelect, d => d.map (List.map selectF)
  | Stage.shuffleStage _ _, d => d.rotate seed
  | Stage.repeatStage, d => (List.replicate repeatCount d).flatten
  | Stage.batch n dropRem, d => batchStage n dropRem d.flatten
  | Stage.prefetch _, d => d

/-- Evaluate a whole pipeline on an input stream of elements. -/
def runPipeline (decodeF selectF : α → α) (seed repeatCount : Nat)
    (stages : List Stage) (input : List α) : List (List α) :=
  stages.foldl
    (fun d s => runStage decodeF selectF seed repeatCount s d)
    (input.map (fun a => [a]))

theorem castLoop_no_int64 (ex : Example) :
    ∀ p ∈ castLoop ex, p.2.dtype ≠ Dtype.int64 := by
  intro p hp
  simp only [castLoop, List.mem_map] at hp
  obtain ⟨q, _, rfl⟩ := hp
  by_cases h : q.2.dtype = Dtype.int64
  · simp [h, castToInt32]
  · simp [h]

theorem castLoop_int64_mem (ex : Example) :
    ∀ p ∈ ex, p.2.dtype = Dtype.int64 → (p.1, castToInt32 p.2) ∈ castLoop ex := by
  intro p hp h
  simp only [castLoop, List.mem_map]
  exact ⟨p, hp, by simp [h]⟩

theorem castLoop_other_mem (ex : Example) :
    ∀ p ∈ ex, p.2.dtype ≠ Dtype.int64 → p ∈ castLoop ex := by
  intro p hp h
  simp only [castLoop, List.mem_map]
  exact ⟨p, hp, by simp [h]⟩

/-- C1: on a successfully parsed record, `decode_record` returns the
parsed example with every int64 field replaced by the same tensor cast to
int32 (every other field unchanged), and no field of the returned example
has dtype int64. -/
theorem decode_record_downcasts_int64 (parse : ParseFn)
    (record : SerializedRecord) (ntf : NameToFeatures) (ex : Example)
    (h : parse record ntf = Except.ok ex) :
    decode_record parse record ntf = Except.ok (castLoop ex) ∧
    (∀ p ∈ castLoop ex, p.2.dtype ≠ Dtype.int64) ∧
    (∀ p ∈ ex, p.2.dtype = Dtype.int64 →
      (p.1, castToInt32 p.2) ∈ castLoop ex) ∧
    (∀ p ∈ ex, p.2.dtype ≠ Dtype.int64 → p ∈ castLoop ex) ∧
    (castLoop ex).length = ex.length := by
  refine ⟨?_, castLoop_no_int64 ex, castLoop_int64_mem ex,
    castLoop_other_mem ex, by simp [castLoop]⟩
  simp [decode_record, h, Except.map]

/-- Witness for C1: a concrete parse result holding one int64 field with a
value above the int32 range and one float32 field; the decoded example
downcasts the former, keeps the latter, and holds no int64 field. -/
theorem decode_record_downcasts_int64_witness :
    decode_record (fun _ _ => Except.ok
        [("input_ids", ⟨Dtype.int64, [2 ^ 32 + 7]⟩),
         ("p_mask", ⟨Dtype.float32, [1]⟩)]) [] [] =
      Except.ok [("input_ids", ⟨Dtype.int32, [7]⟩),
                 ("p_mask", ⟨Dtype.float32, [1]⟩)] ∧
    (∀ p ∈ castLoop [("input_ids", ⟨Dtype.int64, [(2 : Int) ^ 32 + 7]⟩),
         ("p_mask", ⟨Dtype.float32, [1]⟩)], p.2.dtype ≠ Dtype.int64) := by
  have h := decode_record_downcasts_int64
    (fun _ _ => Except.ok
      [("input_ids", ⟨Dtype.int64, [2 ^ 32 + 7]⟩),
       ("p_mask", ⟨Dtype.float32, [1]⟩)]) [] []
    [("input_ids", ⟨Dtype.int64, [2 ^ 32 + 7]⟩),
     ("p_mask", ⟨Dtype.float32, [1]⟩)] rfl
  refine ⟨?_, h.2.1⟩
  have hc : castLoop [("input_ids", ⟨Dtype.int64, [(2 : Int) ^ 32 + 7]⟩),
      ("p_mask", ⟨Dtype.float32, [1]⟩)] =
      [("input_ids", ⟨Dtype.int32, [7]⟩),
       ("p_mask", ⟨Dtype.float32, [1]⟩)] := by
    simp [castLoop, castToInt32, toInt32]
  rw [h.1, hc]

/-- C4: `decode_record` installs no error handler: it returns the parse
error exactly when and exactly as the external parse function raises it,
and succeeds exactly when the parse succeeds. -/
theorem decode_record_propagates_parse_errors (parse : ParseFn)
    (record : SerializedRecord) (ntf : NameToFeatures) :
    (∀ e, parse record ntf = Except.error e →
      decode_record parse record ntf = Except.error e) ∧
    (∀ e, decode_record parse record ntf = Except.error e →
      parse record ntf = Except.error e) ∧
    (∀ ex, parse record ntf = Except.ok ex →
      ∃ ex2, decode_record parse record ntf = Except.ok ex2) := by
  refine ⟨?_, ?_, ?_⟩
  · intro e he
    simp [decode_record, he, Except.map]
  · intro e he
    cases hp : parse record ntf with
    | error e2 => simpa [decode_record, hp, Except.map] using he
    | ok ex => simp [decode_record, hp, Except.map] at he
  · intro ex hex
    exact ⟨castLoop ex, by simp [decode_record, hex, Except.map]⟩

/-- Witness for C4: a parse function that always raises; `decode_record`
returns its error unchanged. -/
theorem decode_record_propagates_parse_errors_witness :
    decode_record (fun _ _ => Except.error "schema mismatch") [] [] =
      Except.error "schema mismatch" :=
  (decode_record_propagates_parse_errors
    (fun _ _ => Except.error "schema mismatch") [] []).1
    "schema mismatch" rfl

theorem squad_select_with_partition (isLabel : String → Bool)
    (record : Example) :
    (∀ p ∈ (squad_select_with isLabel record).2, isLabel p.1 = true) ∧
    (∀ p ∈ (squad_select_with isLabel record).1, isLabel p.1 = false) ∧
    (∀ p, p ∈ record ↔ p ∈ (squad_select_with isLabel record).1 ∨
      p ∈ (squad_select_with isLabel record).2) ∧
    (∀ p, ¬(p ∈ (squad_select_with isLabel record).1 ∧
      p ∈ (squad_select_with isLabel record).2)) ∧
    (squad_select_with isLabel record).1.length +
      (squad_select_with isLabel record).2.length = record.length := by
  simp only [squad_select_with]
  refine ⟨?_, ?_, ?_, ?_, ?_⟩
  · intro p hp
    exact (List.mem_filter.mp hp).2
  · intro p hp
    simpa using (List.mem_filter.mp hp).2
  · intro p
    constructor
    · intro hp
      by_cases h : isLabel p.1
      · exact Or.inr (List.mem_filter.mpr ⟨hp, h⟩)
      · exact Or.inl (List.mem_filter.mpr ⟨hp, by simp [h]⟩)
    · rintro (hp | hp) <;> exact (List.mem_filter.mp hp).1
  · rintro p ⟨hx, hy⟩
    have h1 := (List.mem_filter.mp hx).2
    have h2 := (List.mem_filter.mp hy).2
    simp [h2] at h1
  · have := List.length_eq_length_filter_add (l := record)
      (fun p => isLabel p.1)
    omega

/-- C2: the `_select_data_from_record` functions of `create_squad_dataset`
and `create_squad_dataset_v2` partition the record: `y` holds exactly the
fields named `start_positions`/`end_positions` (plus `is_impossible` for
v2), `x` holds every other field, no field is in both, and every field of
the record appears in exactly one of them with its value unchanged. -/
theorem squad_selects_partition_record (record : Example) :
    ((∀ p ∈ (squad_select record).2, squadLabelName p.1 = true) ∧
     (∀ p ∈ (squad_select record).1, squadLabelName p.1 = false) ∧
     (∀ p, p ∈ record ↔ p ∈ (squad_select record).1 ∨
       p ∈ (squad_select record).2) ∧
     (∀ p, ¬(p ∈ (squad_select record).1 ∧ p ∈ (squad_select record).2)) ∧
     (squad_select record).1.length + (squad_select record).2.length =
       record.length) ∧
    ((∀ p ∈ (squad_v2_select record).2, squadV2LabelName p.1 = true) ∧
     (∀ p ∈ (squad_v2_select record).1, squadV2LabelName p.1 = false) ∧
     (∀ p, p ∈ record ↔ p ∈ (squad_v2_select record).1 ∨
       p ∈ (squad_v2_select record).2) ∧
     (∀ p, ¬(p ∈ (squad_v2_select record).1 ∧
       p ∈ (squad_v2_select record).2)) ∧
     (squad_v2_select record).1.length + (squad_v2_select record).2.length =
       record.length) :=
  ⟨squad_select_with_partition squadLabelName record,
   squad_select_with_partition squadV2LabelName record⟩

/-- Witness for C2: a concrete training-mode squad record is split into
features and labels as the claim says. -/
theorem squad_selects_partition_record_witness :
    squad_select
        [("unique_ids", ⟨Dtype.int32, [1]⟩),
         ("input_ids", ⟨Dtype.int32, [4, 5]⟩),
         ("start_positions", ⟨Dtype.int32, [2]⟩),
         ("end_positions", ⟨Dtype.int32, [3]⟩)] =
      ([("unique_ids", ⟨Dtype.int32, [1]⟩),
        ("input_ids", ⟨Dtype.int32, [4, 5]⟩)],
       [("start_positions", ⟨Dtype.int32, [2]⟩),
        ("end_positions", ⟨Dtype.int32, [3]⟩)]) ∧
    (("unique_ids", (⟨Dtype.int32, [1]⟩ : Tensor)) ∈
        [("unique_ids", (⟨Dtype.int32, [1]⟩ : Tensor)),
         ("input_ids", ⟨Dtype.int32, [4, 5]⟩),
         ("start_positions", ⟨Dtype.int32, [2]⟩),
         ("end_positions", ⟨Dtype.int32, [3]⟩)] ↔
      ("unique_ids", (⟨Dtype.int32, [1]⟩ : Tensor)) ∈
          (squad_select
            [("unique_ids", ⟨Dtype.int32, [1]⟩),
             ("input_ids", ⟨Dtype.int32, [4, 5]⟩),
             ("start_positions", ⟨Dtype.int32, [2]⟩),
             ("end_positions", ⟨Dtype.int32, [3]⟩)]).1 ∨
        ("unique_ids", (⟨Dtype.int32, [1]⟩ : Tensor)) ∈
          (squad_select
            [("unique_ids", ⟨Dtype.int32, [1]⟩),
             ("input_ids", ⟨Dtype.int32, [4, 5]⟩),
             ("start_positions", ⟨Dtype.int32, [2]⟩),
             ("end_positions", ⟨Dtype.int32, [3]⟩)]).2) := by
  constructor
  · decide
  · exact (squad_selects_partition_record
      [("unique_ids", ⟨Dtype.int32, [1]⟩),
       ("input_ids", ⟨Dtype.int32, [4, 5]⟩),
       ("start_positions", ⟨Dtype.int32, [2]⟩),
       ("end_positions", ⟨Dtype.int32, [3]⟩)]).1.2.2.1 _

/-- C8: on a record holding the four looked-up fields,
`create_classifier_dataset._select_data_from_record` returns `x` with
exactly the keys `input_word_ids`, `input_mask`, `input_type_ids` bound to
the record's `input_ids`, `input_mask`, `segment_ids` values unchanged,
`y` equal to the record's `label_ids` value, and the parsed
`is_real_example` field in neither `x` (not one of its keys) nor `y`. -/
theorem classifier_select_drops_is_real_example (record : Example)
    (ids mask seg lab : Tensor)
    (h1 : record.lookup "input_ids" = some ids)
    (h2 : record.lookup "input_mask" = some mask)
    (h3 : record.lookup "segment_ids" = some seg)
    (h4 : record.lookup "label_ids" = some lab) :
    classifier_select record =
      some ([("input_word_ids", ids), ("input_mask", mask),
             ("input_type_ids", seg)], lab) ∧
    (∀ x y, classifier_select record = some (x, y) →
      x.map Prod.fst = ["input_word_ids", "input_mask", "input_type_ids"] ∧
      "is_real_example" ∉ x.map Prod.fst ∧
      x.lookup "input_word_ids" = record.lookup "input_ids" ∧
      x.lookup "input_mask" = record.lookup "input_mask" ∧
      x.lookup "input_type_ids" = record.lookup "segment_ids" ∧
      some y = record.lookup "label_ids") := by
  have hsel : classifier_select record =
      some ([("input_word_ids", ids), ("input_mask", mask),
             ("input_type_ids", seg)], lab) := by
    simp [classifier_select, h1, h2, h3, h4]
  refine ⟨hsel, ?_⟩
  intro x y hxy
  rw [hsel] at hxy
  obtain ⟨rfl, rfl⟩ : [("input_word_ids", ids), ("input_mask", mask),
      ("input_type_ids", seg)] = x ∧ lab = y := by
    simpa using hxy
  simp [h1, h2, h3, h4, List.lookup]

/-- Witness for C8: a concrete classifier record with an
`is_real_example` field; the select keeps the three renamed features and
the label and drops `is_real_example`. -/
theorem classifier_select_drops_is_real_example_witness :
    classifier_select
        [("input_ids", ⟨Dtype.int32, [1, 2]⟩),
         ("input_mask", ⟨Dtype.int32, [1, 1]⟩),
         ("segment_ids", ⟨Dtype.int32, [0, 0]⟩),
         ("label_ids", ⟨Dtype.int32, [3]⟩),
         ("is_real_example", ⟨Dtype.int32, [1]⟩)] =
      some ([("input_word_ids", ⟨Dtype.int32, [1, 2]⟩),
             ("input_mask", ⟨Dtype.int32, [1, 1]⟩),
             ("input_type_ids", ⟨Dtype.int32, [0, 0]⟩)],
            ⟨Dtype.int32, [3]⟩) :=
  (classifier_select_drops_is_real_example
    [("input_ids", ⟨Dtype.int32, [1, 2]⟩),
     ("input_mask", ⟨Dtype.int32, [1, 1]⟩),
     ("segment_ids", ⟨Dtype.int32, [0, 0]⟩),
     ("label_ids", ⟨Dtype.int32, [3]⟩),
     ("is_real_example", ⟨Dtype.int32, [1]⟩)]
    ⟨Dtype.int32, [1, 2]⟩ ⟨Dtype.int32, [1, 1]⟩ ⟨Dtype.int32, [0, 0]⟩
    ⟨Dtype.int32, [3]⟩ (by decide) (by decide) (by decide) (by decide)).1

/-- C9: in evaluation mode the squad schemas declare no label-named field,
and on any record whose field names all come from the evaluation-mode
schema the select returns an empty label mapping `y` and a feature mapping
`x` equal to the whole record. -/
theorem squad_eval_mode_labels_empty (seq_length : Nat) :
    (∀ p ∈ squad_name_to_features seq_length false,
      squadLabelName p.1 = false) ∧
    (∀ p ∈ squad_v2_name_to_features seq_length false,
      squadV2LabelName p.1 = false) ∧
    (∀ record : Example,
      (∀ p ∈ record,
        p.1 ∈ (squad_name_to_features seq_length false).map Prod.fst) →
      squad_select record = (record, [])) ∧
    (∀ record : Example,
      (∀ p ∈ record,
        p.1 ∈ (squad_v2_name_to_features seq_length false).map Prod.fst) →
      squad_v2_select record = (record, [])) := by
  refine ⟨?_, ?_, ?_, ?_⟩
  · intro p hp
    simp only [squad_name_to_features, if_neg Bool.false_ne_true,
      List.append_nil, List.mem_cons, List.not_mem_nil, or_false] at hp
    rcases hp with rfl | rfl | rfl | rfl <;> simp [squadLabelName]
  · intro p hp
    simp only [squad_v2_name_to_features, if_neg Bool.false_ne_true,
      List.append_nil, List.mem_cons, List.not_mem_nil, or_false] at hp
    rcases hp with rfl | rfl | rfl | rfl | rfl <;> simp [squadV2LabelName]
  · intro record hrec
    have hlab : ∀ p ∈ record, squadLabelName p.1 = false := by
      intro p hp
      have := hrec p hp
      simp only [squad_name_to_features, if_neg Bool.false_ne_true,
        List.append_nil, List.map_cons, List.map_nil, List.mem_cons,
        List.not_mem_nil, or_false] at this
      rcases this with h | h | h | h <;> simp [h, squadLabelName]
    simp only [squad_select, squad_select_with, Prod.mk.injEq]
    constructor
    · exact List.filter_eq_self.mpr (fun p hp => by simp [hlab p hp])
    · exact List.filter_eq_nil_iff.mpr (fun p hp => by simp [hlab p hp])
  · intro record hrec
    have hlab : ∀ p ∈ record, squadV2LabelName p.1 = false := by
      intro p hp
      have := hrec p hp
      simp only [squad_v2_name_to_features, if_neg Bool.false_ne_true,
        List.append_nil, List.map_cons, List.map_nil, List.mem_cons,
        List.not_mem_nil, or_false] at this
      rcases this with h | h | h | h | h <;> simp [h, squadV2LabelName]
    simp only [squad_v2_select, squad_select_with, Prod.mk.injEq]
    constructor
    · exact List.filter_eq_self.mpr (fun p hp => by simp [hlab p hp])
    · exact List.filter_eq_nil_iff.mpr (fun p hp => by simp [hlab p hp])

/-- Witness for C9: a concrete evaluation-mode squad record; the select
puts every field in `x` and leaves `y` empty. -/
theorem squad_eval_mode_labels_empty_witness :
    squad_select
        [("unique_ids", ⟨Dtype.int32, [9]⟩),
         ("input_ids", ⟨Dtype.int32, [1, 2]⟩)] =
      ([("unique_ids", ⟨Dtype.int32, [9]⟩),
        ("input_ids", ⟨Dtype.int32, [1, 2]⟩)], []) :=
  (squad_eval_mode_labels_empty 2).2.2.1
    [("unique_ids", ⟨Dtype.int32, [9]⟩),
     ("input_ids", ⟨Dtype.int32, [1, 2]⟩)] (by decide)

/-- C3: in all three dataset constructors a shuffle stage is present iff
`is_training`, and a repeat stage is present iff `is_training` and
`FLAGS.custom_training_loop` are both set; in evaluation mode the pipeline
has neither. -/
theorem shuffle_iff_training_repeat_iff_ctl (fp : InputFile) (bs : Nat)
    (it ctl dr : Bool) :
    ((∃ b r, Stage.shuffleStage b r ∈
        create_classifier_dataset_stages fp bs it ctl dr) ↔ it = true) ∧
    (Stage.repeatStage ∈ create_classifier_dataset_stages fp bs it ctl dr ↔
      (it = true ∧ ctl = true)) ∧
    ((∃ b r, Stage.shuffleStage b r ∈
        create_squad_dataset_stages fp bs it ctl) ↔ it = true) ∧
    (Stage.repeatStage ∈ create_squad_dataset_stages fp bs it ctl ↔
      (it = true ∧ ctl = true)) ∧
    ((∃ b r, Stage.shuffleStage b r ∈
        create_squad_dataset_v2_stages fp bs it ctl) ↔ it = true) ∧
    (Stage.repeatStage ∈ create_squad_dataset_v2_stages fp bs it ctl ↔
      (it = true ∧ ctl = true)) := by
  cases h : singleFileInput fp <;> cases it <;> cases ctl <;>
    simp [create_classifier_dataset_stages, create_squad_dataset_stages,
      create_squad_dataset_v2_stages, input_fn_stages, tail_stages, h]

/-- C5 counterexample: on a single-path input the code does issue a
sharding configuration of its own, a `with_options` stage that turns
auto-sharding off, so the options are not left at the library's defaults
for every input. -/
theorem input_fn_sets_autoshard_counterexample :
    Stage.withOptions false ∈
      input_fn_stages (InputFile.single "train.tfrecord") := by
  simp [input_fn_stages, singleFileInput]

/-- C5 amended: `file_based_input_fn_builder` issues a sharding option iff
the input is a single file (a path string or a one-element list), and the
only option it ever issues disables auto-sharding; for multi-file inputs
the library's defaults are untouched. -/
theorem input_fn_autoshard_policy (f : InputFile) :
    ((∃ b, Stage.withOptions b ∈ input_fn_stages f) ↔
      singleFileInput f = true) ∧
    (∀ b, Stage.withOptions b ∈ input_fn_stages f → b = false) := by
  cases h : singleFileInput f <;> simp [input_fn_stages, h]

/-- Witness for the amended C5: a single path gets the
auto-sharding-disabled option; a two-file list gets no option stage. -/
theorem input_fn_autoshard_policy_witness :
    Stage.withOptions false ∈ input_fn_stages (InputFile.single "f") ∧
    ¬(∃ b, Stage.withOptions b ∈
      input_fn_stages (InputFile.many ["a", "b"])) := by
  constructor
  · obtain ⟨b, hb⟩ := (input_fn_autoshard_policy (InputFile.single "f")).1.mpr
      (by decide)
    have hbf := (input_fn_autoshard_policy (InputFile.single "f")).2 b hb
    rwa [hbf] at hb
  · intro hex
    have := (input_fn_autoshard_policy (InputFile.many ["a", "b"])).1.mp hex
    simp [singleFileInput] at this

/-- The per-token sequence field names of C6: `input_ids`, `input_mask`,
`segment_ids`, and `p_mask`. -/
def perTokenField (name : String) : Bool :=
  name == "input_ids" || name == "input_mask" || name == "segment_ids" ||
    name == "p_mask"

/-- C6: every field of the three declared schemas is a fixed-length
feature whose shape is `[seq_length]` for the per-token fields and `[]`
(scalar) for the per-example fields, for every `seq_length` and both
training modes. -/
theorem schemas_declare_expected_shapes (seq_length : Nat) (it : Bool) :
    (∀ p ∈ classifier_name_to_features seq_length,
      p.2.shape = if perTokenField p.1 then [seq_length] else []) ∧
    (∀ p ∈ squad_name_to_features seq_length it,
      p.2.shape = if perTokenField p.1 then [seq_length] else []) ∧
    (∀ p ∈ squad_v2_name_to_features seq_length it,
      p.2.shape = if perTokenField p.1 then [seq_length] else []) := by
  refine ⟨?_, ?_, ?_⟩
  · intro p hp
    simp only [classifier_name_to_features, List.mem_cons,
      List.not_mem_nil, or_false] at hp
    rcases hp with rfl | rfl | rfl | rfl | rfl <;> simp [perTokenField]
  · intro p hp
    cases it with
    | false =>
      simp only [squad_name_to_features, Bool.false_eq_true, if_false,
        List.append_nil, List.mem_cons, List.not_mem_nil, or_false] at hp
      rcases hp with rfl | rfl | rfl | rfl <;> simp [perTokenField]
    | true =>
      simp only [squad_name_to_features, if_true, List.mem_append,
        List.mem_cons, List.not_mem_nil, or_false] at hp
      rcases hp with (rfl | rfl | rfl | rfl) | (rfl | rfl) <;>
        simp [perTokenField]
  · intro p hp
    cases it with
    | false =>
      simp only [squad_v2_name_to_features, Bool.false_eq_true, if_false,
        List.append_nil, List.mem_cons, List.not_mem_nil, or_false] at hp
      rcases hp with rfl | rfl | rfl | rfl | rfl <;> simp [perTokenField]
    | true =>
      simp only [squad_v2_name_to_features, if_true, List.mem_append,
        List.mem_cons, List.not_mem_nil, or_false] at hp
      rcases hp with (rfl | rfl | rfl | rfl | rfl) | (rfl | rfl | rfl) <;>
        simp [perTokenField]

/-- Witness for C6: the `input_ids` entry of the classifier schema at
`seq_length = 7` has shape `[7]`. -/
theorem schemas_declare_expected_shapes_witness :
    ("input_ids", (⟨[7], Dtype.int64⟩ : FixedLenFeature)).2.shape =
      (if perTokenField ("input_ids",
        (⟨[7], Dtype.int64⟩ : FixedLenFeature)).1 then [7] else []) :=
  (schemas_declare_expected_shapes 7 true).1
    ("input_ids", ⟨[7], Dtype.int64⟩) (by decide)

/-- The batch and prefetch stages of a pipeline, in order. -/
def batchPrefetchStages (stages : List Stage) : List Stage :=
  stages.filter fun s =>
    match s with
    | Stage.batch _ _ => true
    | Stage.prefetch _ => true
    | _ => false

/-- C7 counterexample: at a concrete input the batch/prefetch stages of
each constructor are identical for `is_training=true` and
`is_training=false`, so the batch and prefetch policies do not differ
between the two modes. -/
theorem batch_prefetch_mode_independent_counterexample :
    batchPrefetchStages
        (create_classifier_dataset_stages (InputFile.single "f") 8
          true true true) =
      batchPrefetchStages
        (create_classifier_dataset_stages (InputFile.single "f") 8
          false true true) ∧
    batchPrefetchStages
        (create_squad_dataset_stages (InputFile.single "f") 8 true true) =
      batchPrefetchStages
        (create_squad_dataset_stages (InputFile.single "f") 8 false true) ∧
    batchPrefetchStages
        (create_squad_dataset_v2_stages (InputFile.single "f") 8
          true true) =
      batchPrefetchStages
        (create_squad_dataset_v2_stages (InputFile.single "f") 8
          false true) := by
  refine ⟨?_, ?_, ?_⟩ <;> rfl

/-- C7 amended: batching and prefetching are applied identically and
unconditionally in both modes: every pipeline ends with exactly one batch
stage followed by one prefetch stage of buffer 1024, where only
`create_classifier_dataset` honours its `drop_remainder` argument and the
squad constructors always batch with `drop_remainder=False`. -/
theorem batch_prefetch_unconditional (fp : InputFile) (bs : Nat)
    (it ctl dr : Bool) :
    batchPrefetchStages (create_classifier_dataset_stages fp bs it ctl dr) =
      [Stage.batch bs dr, Stage.prefetch 1024] ∧
    batchPrefetchStages (create_squad_dataset_stages fp bs it ctl) =
      [Stage.batch bs false, Stage.prefetch 1024] ∧
    batchPrefetchStages (create_squad_dataset_v2_stages fp bs it ctl) =
      [Stage.batch bs false, Stage.prefetch 1024] := by
  cases h : singleFileInput fp <;> cases it <;> cases ctl <;>
    simp [batchPrefetchStages, create_classifier_dataset_stages,
      create_squad_dataset_stages, create_squad_dataset_v2_stages,
      input_fn_stages, tail_stages, h, List.filter_cons]

/-- C10: with `is_training=false` each constructor's pipeline is
deterministic as a two-run property: two runs with different random seeds
and different epoch counts, over the same input and map functions, yield
the same sequence of batches, since no shuffle or repeat stage is
present. -/
theorem eval_mode_two_run_deterministic {α : Type} (decodeF selectF : α → α)
    (fp : InputFile) (bs : Nat) (ctl dr : Bool)
    (seed1 seed2 rc1 rc2 : Nat) (input : List α) :
    runPipeline decodeF selectF seed1 rc1
        (create_classifier_dataset_stages fp bs false ctl dr) input =
      runPipeline decodeF selectF seed2 rc2
        (create_classifier_dataset_stages fp bs false ctl dr) input ∧
    runPipeline decodeF selectF seed1 rc1
        (create_squad_dataset_stages fp bs false ctl) input =
      runPipeline decodeF selectF seed2 rc2
        (create_squad_dataset_stages fp bs false ctl) input ∧
    runPipeline decodeF selectF seed1 rc1
        (create_squad_dataset_v2_stages fp bs false ctl) input =
      runPipeline decodeF selectF seed2 rc2
        (create_squad_dataset_v2_stages fp bs false ctl) input := by
  cases h : singleFileInput fp <;>
    simp [runPipeline, create_classifier_dataset_stages,
      create_squad_dataset_stages, create_squad_dataset_v2_stages,
      input_fn_stages, tail_stages, h, runStage]

end InputPipeline
